import Mathlib

/-!
Verification of the Product Resource Service: a shallow embedding of the
request handlers in `service/routes.py` together with the Product/Category
model layer they call.  The handler code (`routes.py`) is embedded directly
from the source; the model layer (`service/models.py` is not part of the
source tree, only its tests and callers are) is modelled from the
specification, as marked in the doc comments below.
-/

/-- An exact decimal number: `mant / 10 ^ scale`, remembering the number of
fractional digits, so that `12.50` and `12.5` are distinct values.  This
models the Python `Decimal` type the spec requires for `price`
("must not use binary floating point"). -/
structure Dec where
  mant : Int
  scale : Nat
deriving DecidableEq, Repr

/-- A JSON-like wire value.  `jdec d` stands for the exact decimal string
rendering of `d` (the spec requires price to travel as its exact decimal
string representation, never a float). -/
inductive JValue where
  | jnull
  | jstr (s : String)
  | jint (n : Int)
  | jdec (d : Dec)
  | jbool (b : Bool)
deriving DecidableEq, Repr

/-- A JSON object body: an association list from keys to values. -/
abbrev Payload := List (String × JValue)

/-- The body of a mutating request as seen by `deserialize`: either a
mapping (a JSON object) or something that is not a mapping (e.g. a bare
string), which the spec says must fail with a TypeError-class error. -/
inductive ReqBody where
  | mapping (fields : Payload)
  | nonMapping
deriving DecidableEq, Repr

/-- The in-memory Product entity (spec section 3): `id` is absent before
creation and assigned by storage on create. -/
structure Product where
  id : Option Int
  name : String
  description : String
  price : Dec
  available : Bool
  category_id : Int
deriving DecidableEq, Repr

/-- The Category entity (spec section 3). -/
structure Category where
  id : Int
  name : String
deriving DecidableEq, Repr

/-- The storage backend state: the Product and Category tables plus the
storage-side id sequence used to assign fresh Product ids. -/
structure DB where
  products : List Product
  categories : List Category
  nextId : Int
deriving DecidableEq, Repr

/-- The error classes deserialization can raise.  `attrError` is the
AttributeError-class failure for a missing required key, `typeError` the
TypeError-class failure for a non-mapping body; `uncaught` stands for any
other exception, which the route handlers do not catch. -/
inductive DErr where
  | attrError (msg : String)
  | typeError (msg : String)
  | uncaught (msg : String)
deriving DecidableEq, Repr

/-- Look a key up in a JSON object. -/
def getField (fields : Payload) (k : String) : Option JValue :=
  (fields.find? (fun kv => kv.1 = k)).map (fun kv => kv.2)

/-- Modelled from the spec: `Deserialize(payload)` of the missing
`service/models.py`.  A non-mapping input fails with a TypeError-class
error; the required keys `name`, `description`, `price`, `available`,
`category_id` are checked in order and the first missing one fails with an
AttributeError-class error identifying it; a present key of an unexpected
shape raises an exception the handlers do not catch; `id` is optional and
taken when included. -/
def Product.deserialize (body : ReqBody) : Except DErr Product :=
  match body with
  | .nonMapping => .error (.typeError "input is not a mapping")
  | .mapping fields =>
    match getField fields "name" with
    | none => .error (.attrError "missing name")
    | some vname =>
      match getField fields "description" with
      | none => .error (.attrError "missing description")
      | some vdesc =>
        match getField fields "price" with
        | none => .error (.attrError "missing price")
        | some vprice =>
          match getField fields "available" with
          | none => .error (.attrError "missing available")
          | some vavail =>
            match getField fields "category_id" with
            | none => .error (.attrError "missing category_id")
            | some vcat =>
              match vname, vdesc, vprice, vavail, vcat with
              | .jstr nm, .jstr ds, .jdec pr, .jbool av, .jint ci =>
                .ok { id := match getField fields "id" with
                            | some (.jint n) => some n
                            | _ => none
                      name := nm, description := ds, price := pr
                      available := av, category_id := ci }
              | _, _, _, _, _ => .error (.uncaught "invalid field value")

/-- Modelled from the spec: `Serialize(Product)` of the missing
`service/models.py`: a mapping with keys `id`, `name`, `description`,
`price` (the exact decimal value, standing for its exact decimal string),
`available`, `category_id`; no side effects. -/
def Product.serialize (p : Product) : Payload :=
  [ ("id", match p.id with | some n => .jint n | none => .jnull),
    ("name", .jstr p.name),
    ("description", .jstr p.description),
    ("price", .jdec p.price),
    ("available", .jbool p.available),
    ("category_id", .jint p.category_id) ]

/-- Modelled from the spec: `Find(id)` of the missing `service/models.py`:
single-row lookup by primary key, returning an absent marker (not an
error) when not found. -/
def Product.find (pid : Int) (db : DB) : Option Product :=
  db.products.find? (fun q => q.id = some pid)

/-- Modelled from the spec: `FindAll()` of the missing
`service/models.py`: every row in storage-default order. -/
def Product.all (db : DB) : List Product :=
  db.products

/-- Modelled from the spec: `FindByName(name)` of the missing
`service/models.py`: exact, case-sensitive match on `name`; empty
sequence, never an error, when nothing matches. -/
def Product.find_by_name (n : String) (db : DB) : List Product :=
  db.products.filter (fun q => q.name = n)

/-- Modelled from the spec: `FindByAvailability(flag)` of the missing
`service/models.py`: exact match on the boolean `available` field. -/
def Product.find_by_availability (b : Bool) (db : DB) : List Product :=
  db.products.filter (fun q => q.available = b)

/-- Modelled from the spec: `FindByCategory(category)` of the missing
`service/models.py`: exact match on `category_id` equal to the given
Category id. -/
def Product.find_by_category (c : Category) (db : DB) : List Product :=
  db.products.filter (fun q => q.category_id = c.id)

/-- Modelled from the spec: `Category.FindByName(name)` of the missing
`service/models.py`: exact match, absent marker (not an error) when no
category has that name. -/
def Category.find_by_name (n : String) (db : DB) : Option Category :=
  db.categories.find? (fun c => c.name = n)

/-- Modelled from the spec: `Create(Product)` of the missing
`service/models.py`: inserts a new row and assigns the storage-generated
unique id, returning the instance with `id` populated. -/
def Product.create (p : Product) (db : DB) : Product × DB :=
  let p2 := { p with id := some db.nextId }
  (p2, { db with products := db.products ++ [p2], nextId := db.nextId + 1 })

/-- Modelled from the spec: `Update(Product)` of the missing
`service/models.py`: persists the in-memory field values over the existing
row keyed by `id`. -/
def Product.update (p : Product) (db : DB) : DB :=
  { db with products := db.products.map (fun q => if q.id = p.id then p else q) }

/-- Modelled from the spec: `Delete(Product)` of the missing
`service/models.py`: removes the row keyed by `id` if present; no error if
absent. -/
def Product.delete (p : Product) (db : DB) : DB :=
  { db with products := db.products.filter (fun q => ¬ (q.id = p.id)) }

/-- What a handler sends back: the HTTP status, the response body, and the
Location header when one is set. -/
inductive RespBody where
  | jsonList (items : List Payload)
  | jsonObj (fields : Payload)
  | errText (msg : String)
  | empty
deriving DecidableEq, Repr

structure Response where
  status : Nat
  body : RespBody
  location : Option String
deriving DecidableEq, Repr

/-- `check_content_type` from `routes.py` lines 17-32: absent header
aborts 415, a present header different from the expected value aborts 415
with the same message, and an exact match passes (returns `none`). -/
def check_content_type (hdr : Option String) (content_type : String) : Option Response :=
  match hdr with
  | none => some ⟨415, .errText ("Content-Type must be " ++ content_type), none⟩
  | some v =>
    if v = content_type then none
    else some ⟨415, .errText ("Content-Type must be " ++ content_type), none⟩

/-- Python truthiness of an optional query-string parameter, as used by
`if name:` in `list_products`: absent or empty string is falsy. -/
def truthy : Option String → Bool
  | none => false
  | some s => s ≠ ""

/-- The query parameters `list_products` reads from the request. -/
structure QueryArgs where
  name : Option String
  category : Option String
  available : Option String
deriving DecidableEq, Repr

/-- `list_products` from `routes.py` lines 60-92.  The `try/except` around
the category branch has no failing case here because the spec-modelled
`Category.find_by_name` and `Product.find_by_category` are total and never
raise (the spec defines both as returning absent/empty, never an error),
so the `abort(400)` in that handler is not reachable in this model. -/
def list_products (args : QueryArgs) (db : DB) : Response :=
  if truthy args.name then
    ⟨200, .jsonList ((Product.find_by_name (args.name.getD "") db).map Product.serialize), none⟩
  else if truthy args.category then
    match Category.find_by_name (args.category.getD "") db with
    | none => ⟨200, .jsonList [], none⟩
    | some c =>
      ⟨200, .jsonList ((Product.find_by_category c db).map Product.serialize), none⟩
  else if truthy args.available then
    ⟨200, .jsonList
      ((Product.find_by_availability ((args.available.getD "").toLower == "true") db).map
        Product.serialize), none⟩
  else
    ⟨200, .jsonList ((Product.all db).map Product.serialize), none⟩

/-- `get_products` from `routes.py` lines 95-101. -/
def get_products (pid : Int) (db : DB) : Response :=
  match Product.find pid db with
  | none =>
    ⟨404, .errText ("Product with id \x27" ++ toString pid ++ "\x27 was not found."), none⟩
  | some p => ⟨200, .jsonObj p.serialize, none⟩

/-- The external URL `url_for("get_products", product_id=pid)` resolves
to: the retrieval endpoint for the id. -/
def location_url (pid : Int) : String :=
  "/products/" ++ toString pid

/-- `create_products` from `routes.py` lines 35-57: content-type gate,
deserialize with AttributeError and TypeError mapped to 400 (any other
exception propagates as a 500), then create, serialize and answer 201 with
the Location header. -/
def create_products (hdr : Option String) (body : ReqBody) (db : DB) : Response × DB :=
  match check_content_type hdr "application/json" with
  | some r => (r, db)
  | none =>
    match Product.deserialize body with
    | .error (.attrError m) => (⟨400, .errText m, none⟩, db)
    | .error (.typeError m) => (⟨400, .errText m, none⟩, db)
    | .error (.uncaught m) => (⟨500, .errText m, none⟩, db)
    | .ok prod =>
      let res := Product.create prod db
      (⟨201, .jsonObj res.1.serialize,
        some (location_url db.nextId)⟩, res.2)

/-- `update_products` from `routes.py` lines 104-128: content-type gate,
then `Find(id)` with 404 when absent (update never creates), then
deserialize with the same 400 mapping as create, then the id is forced to
the path id and the row updated. -/
def update_products (hdr : Option String) (pid : Int) (body : ReqBody) (db : DB) :
    Response × DB :=
  match check_content_type hdr "application/json" with
  | some r => (r, db)
  | none =>
    match Product.find pid db with
    | none =>
      (⟨404, .errText ("Product with id \x27" ++ toString pid ++ "\x27 was not found."),
        none⟩, db)
    | some _ =>
      match Product.deserialize body with
      | .error (.attrError m) => (⟨400, .errText m, none⟩, db)
      | .error (.typeError m) => (⟨400, .errText m, none⟩, db)
      | .error (.uncaught m) => (⟨500, .errText m, none⟩, db)
      | .ok prod =>
        let prod2 := { prod with id := some pid }
        (⟨200, .jsonObj prod2.serialize, none⟩, Product.update prod2 db)

/-- `delete_products` from `routes.py` lines 131-138: find, delete when
present, and answer 204 with an empty body either way. -/
def delete_products (pid : Int) (db : DB) : Response × DB :=
  match Product.find pid db with
  | some p => (⟨204, .empty, none⟩, Product.delete p db)
  | none => (⟨204, .empty, none⟩, db)

/-! ## Concrete fixtures used by witnesses and counterexamples -/

/-- A concrete available product in category 1. -/
def pA : Product := ⟨some 1, "A", "first", ⟨100, 2⟩, true, 1⟩

/-- A concrete unavailable product in category 1. -/
def pB : Product := ⟨some 2, "B", "second", ⟨200, 2⟩, false, 1⟩

/-- A concrete database with two products and one category. -/
def dbW : DB := ⟨[pA, pB], [⟨1, "Cat"⟩], 3⟩

/-- An empty database. -/
def dbE : DB := ⟨[], [⟨1, "Cat"⟩], 1⟩

/-! ## Helper lemmas -/

theorem find_filter_ne (l : List Product) (p : Product) (pid : Int)
    (h : l.find? (fun q => q.id = some pid) = some p) :
    (l.filter (fun q => ¬ (q.id = p.id))).find? (fun q => q.id = some pid) = none := by
  have hp : p.id = some pid := by
    have := List.find?_some h
    simpa using this
  rw [List.find?_eq_none]
  intro x hx
  have hx2 := (List.mem_filter.mp hx).2
  simp [hp] at hx2 ⊢
  exact hx2

theorem find_after_delete (pid : Int) (db : DB) :
    Product.find pid (delete_products pid db).2 = none := by
  cases h : Product.find pid db with
  | none => simp [delete_products, h]
  | some p =>
    simp only [delete_products, h]
    simp only [Product.find, Product.delete] at h ⊢
    exact find_filter_ne db.products p pid h

theorem delete_products_resp (pid : Int) (db : DB) :
    (delete_products pid db).1 = ⟨204, .empty, none⟩ := by
  cases h : Product.find pid db <;> simp [delete_products, h]

theorem delete_products_noop (pid : Int) (db : DB) (h : Product.find pid db = none) :
    (delete_products pid db).2 = db := by
  simp [delete_products, h]

/-- C3: for POST /products and PUT /products/id, an absent Content-Type
header or one different from application/json yields 415 in both cases and
for any body, while a header equal to application/json passes the gate. -/
theorem c3_content_type_gate (hdr : Option String) (body : ReqBody) (db : DB) (pid : Int)
    (h : hdr ≠ some "application/json") :
    (create_products hdr body db).1.status = 415 ∧
    (update_products hdr pid body db).1.status = 415 ∧
    check_content_type (some "application/json") "application/json" = none := by
  refine ⟨?_, ?_, by simp [check_content_type]⟩ <;>
  · cases hdr with
    | none => simp [create_products, update_products, check_content_type]
    | some v =>
      have hv : v ≠ "application/json" := fun hh => h (by rw [hh])
      simp [create_products, update_products, check_content_type, hv]

theorem c3_content_type_gate_witness :
    (create_products none ReqBody.nonMapping dbE).1.status = 415 ∧
    (update_products none 1 ReqBody.nonMapping dbE).1.status = 415 ∧
    check_content_type (some "application/json") "application/json" = none :=
  c3_content_type_gate none ReqBody.nonMapping dbE 1 (by simp)

/-- C4: DELETE /products/id answers 204 with an empty body whether or not
the id exists, the row is absent afterwards, and a second delete of the
same id again answers 204 and leaves the state unchanged. -/
theorem c4_delete_idempotent (pid : Int) (db : DB) :
    (delete_products pid db).1 = ⟨204, .empty, none⟩ ∧
    Product.find pid (delete_products pid db).2 = none ∧
    (delete_products pid (delete_products pid db).2).1 = ⟨204, .empty, none⟩ ∧
    (delete_products pid (delete_products pid db).2).2 = (delete_products pid db).2 :=
  ⟨delete_products_resp pid db, find_after_delete pid db,
   delete_products_resp pid (delete_products pid db).2,
   delete_products_noop pid (delete_products pid db).2 (find_after_delete pid db)⟩

/-- C5: when Find(id) yields no Product, GET /products/id answers 404, and
PUT /products/id with the correct content type answers 404 for every body
and leaves the database unchanged (update never creates). -/
theorem c5_not_found (pid : Int) (db : DB) (body : ReqBody)
    (h : Product.find pid db = none) :
    (get_products pid db).status = 404 ∧
    (update_products (some "application/json") pid body db).1.status = 404 ∧
    (update_products (some "application/json") pid body db).2 = db := by
  refine ⟨?_, ?_, ?_⟩ <;> simp [get_products, update_products, check_content_type, h]

theorem c5_not_found_witness :
    Product.find 7 dbE = none ∧
    ((get_products 7 dbE).status = 404 ∧
     (update_products (some "application/json") 7 ReqBody.nonMapping dbE).1.status = 404 ∧
     (update_products (some "application/json") 7 ReqBody.nonMapping dbE).2 = dbE) :=
  ⟨rfl, c5_not_found 7 dbE ReqBody.nonMapping rfl⟩

/-- C2: a GET /products request whose (non-empty) category parameter names
no existing Category, with no name filter, answers 200 with an empty list,
whatever the available parameter is — never a 400 or 404. -/
theorem c2_category_miss_empty (db : DB) (c : String) (avail : Option String)
    (h1 : c ≠ "") (h2 : Category.find_by_name c db = none) :
    list_products ⟨none, some c, avail⟩ db = ⟨200, .jsonList [], none⟩ := by
  simp [list_products, truthy, h1, h2]

theorem c2_category_miss_empty_witness :
    ("Ghost" ≠ "") ∧ Category.find_by_name "Ghost" dbW = none ∧
    list_products ⟨none, some "Ghost", none⟩ dbW = ⟨200, .jsonList [], none⟩ :=
  ⟨by simp, by decide, c2_category_miss_empty dbW "Ghost" none (by simp) (by decide)⟩

/-- C10: a GET /products request whose available parameter is a non-empty
string, with no name or category filter, filters by the boolean obtained
by case-insensitively comparing the parameter to "true"; any non-empty
value other than that returns, with status 200, exactly the products whose
available field is false. -/
theorem c10_available_truthiness (s : String) (db : DB) (h : s ≠ "") :
    list_products ⟨none, none, some s⟩ db =
      ⟨200, .jsonList ((Product.find_by_availability (s.toLower == "true") db).map
        Product.serialize), none⟩ ∧
    (s.toLower ≠ "true" →
      list_products ⟨none, none, some s⟩ db =
        ⟨200, .jsonList ((Product.find_by_availability false db).map
          Product.serialize), none⟩) := by
  constructor
  · simp [list_products, truthy, h]
  · intro h2
    have hb : (s.toLower == "true") = false := by
      simp [h2]
    simp [list_products, truthy, h, hb]

theorem c10_available_truthiness_witness :
    ("garbage" ≠ "") ∧
    list_products ⟨none, none, some "garbage"⟩ dbW =
      ⟨200, .jsonList ((Product.find_by_availability false dbW).map
        Product.serialize), none⟩ ∧
    (Product.find_by_availability false dbW).map Product.serialize = [pB.serialize] :=
  ⟨by simp,
   (c10_available_truthiness "garbage" dbW (by simp)).2
     (by rw [String.toLower, String.map_eq]; decide),
   by decide⟩

/-- C1 (amended): GET /products checks the query parameters in the fixed
order name, category, available and applies exactly one filter — the first
parameter that is present with a non-empty value (Python truthiness: an
empty-string parameter is skipped like an absent one) — falling back to
listing all products when none is; a name parameter that is truthy wins
over category and available, and the response is then exactly the
name-filtered list. -/
theorem c1_filter_precedence (args : QueryArgs) (db : DB) :
    (truthy args.name = true →
      list_products args db = list_products ⟨args.name, none, none⟩ db ∧
      list_products args db =
        ⟨200, .jsonList ((Product.find_by_name (args.name.getD "") db).map
          Product.serialize), none⟩) ∧
    (truthy args.name = false → truthy args.category = true →
      list_products args db = list_products ⟨none, args.category, none⟩ db) ∧
    (truthy args.name = false → truthy args.category = false →
      truthy args.available = true →
      list_products args db = list_products ⟨none, none, args.available⟩ db) ∧
    (truthy args.name = false → truthy args.category = false →
      truthy args.available = false →
      list_products args db =
        ⟨200, .jsonList ((Product.all db).map Product.serialize), none⟩) := by
  obtain ⟨n, c, a⟩ := args
  refine ⟨fun h1 => ⟨?_, ?_⟩, fun h1 h2 => ?_, fun h1 h2 h3 => ?_, fun h1 h2 h3 => ?_⟩ <;>
    simp_all [list_products, truthy]

theorem c1_filter_precedence_witness :
    truthy (some "B") = true ∧
    list_products ⟨some "B", some "Cat", none⟩ dbW =
      list_products ⟨some "B", none, none⟩ dbW ∧
    list_products ⟨some "B", some "Cat", none⟩ dbW =
      ⟨200, .jsonList ((Product.find_by_name "B" dbW).map Product.serialize), none⟩ :=
  ⟨by decide,
   ((c1_filter_precedence ⟨some "B", some "Cat", none⟩ dbW).1 (by decide)).1,
   ((c1_filter_precedence ⟨some "B", some "Cat", none⟩ dbW).1 (by decide)).2⟩

/-- C1 fails as stated: with name supplied as the empty string together
with a category, the first parameter present is name, yet the handler
applies the category filter (Python truthiness skips the empty string), so
the response is the category list and not the name-filtered list. -/
theorem c1_empty_name_counterexample :
    truthy (some "") = false ∧
    (Product.find_by_name "" dbW).map Product.serialize = [] ∧
    list_products ⟨some "", some "Cat", none⟩ dbW =
      ⟨200, .jsonList ((Product.find_by_category ⟨1, "Cat"⟩ dbW).map
        Product.serialize), none⟩ ∧
    list_products ⟨some "", some "Cat", none⟩ dbW ≠
      ⟨200, .jsonList ((Product.find_by_name "" dbW).map Product.serialize), none⟩ := by
  decide

theorem list_products_always_200 (args : QueryArgs) (db : DB) :
    (list_products args db).status = 200 := by
  unfold list_products
  split_ifs with h1 h2 h3
  · rfl
  · cases Category.find_by_name (args.category.getD "") db <;> rfl
  · rfl
  · rfl

/-- C9 (amended): no GET /products request can answer 400.  The handler
does contain an abort-400 branch for an invalid category, but it sits in a
try/except whose body only calls Category.FindByName and
Product.FindByCategory, which by the model-layer contract return an absent
marker or a sequence and never fail, so the branch is unreachable and
every list request answers with status 200. -/
theorem c9_list_never_400 (args : QueryArgs) (db : DB) :
    (list_products args db).status = 200 :=
  list_products_always_200 args db

/-- C9 fails as stated: there is no request at all for which the list
handler responds 400. -/
theorem c9_counterexample :
    ¬ ∃ (args : QueryArgs) (db : DB), (list_products args db).status = 400 := by
  rintro ⟨args, db, h⟩
  rw [list_products_always_200 args db] at h
  norm_num at h

/-- The Fedora payload from the spec's create scenario, with price the
exact decimal 12.50 (two fractional digits). -/
def fedoraBody : ReqBody := .mapping
  [ ("name", .jstr "Fedora"), ("description", .jstr "A red hat"),
    ("price", .jdec ⟨1250, 2⟩), ("available", .jbool true),
    ("category_id", .jint 1) ]

/-- C6: once the content-type gate has passed, a deserialization failure
of the AttributeError class (missing required key) or of the TypeError
class (body not a mapping) makes both POST /products and PUT
/products/id (on an existing id) answer 400 carrying the error message,
while a successful deserialization takes neither error branch: create
answers 201 and update answers 200. -/
theorem c6_deserialize_errors (body : ReqBody) (db : DB) (pid : Int) (q : Product)
    (hf : Product.find pid db = some q) :
    (∀ m, Product.deserialize body = .error (.attrError m) →
      (create_products (some "application/json") body db).1 = ⟨400, .errText m, none⟩ ∧
      (update_products (some "application/json") pid body db).1 =
        ⟨400, .errText m, none⟩) ∧
    (∀ m, Product.deserialize body = .error (.typeError m) →
      (create_products (some "application/json") body db).1 = ⟨400, .errText m, none⟩ ∧
      (update_products (some "application/json") pid body db).1 =
        ⟨400, .errText m, none⟩) ∧
    (∀ p, Product.deserialize body = .ok p →
      (create_products (some "application/json") body db).1.status = 201 ∧
      (update_products (some "application/json") pid body db).1.status = 200) := by
  refine ⟨fun m h => ?_, fun m h => ?_, fun p h => ?_⟩ <;>
    constructor <;>
    simp [create_products, update_products, check_content_type, hf, h]

theorem c6_deserialize_errors_witness :
    Product.find 1 dbW = some pA ∧
    Product.deserialize (ReqBody.mapping [("name", JValue.jstr "Test")]) =
      .error (.attrError "missing description") ∧
    (create_products (some "application/json")
        (ReqBody.mapping [("name", JValue.jstr "Test")]) dbW).1 =
      ⟨400, .errText "missing description", none⟩ ∧
    (update_products (some "application/json") 1
        (ReqBody.mapping [("name", JValue.jstr "Test")]) dbW).1 =
      ⟨400, .errText "missing description", none⟩ :=
  ⟨by decide, rfl,
   (c6_deserialize_errors (ReqBody.mapping [("name", JValue.jstr "Test")]) dbW 1 pA
      (by decide)).1 "missing description" rfl⟩

theorem deserialize_serialize (q : Product) :
    Product.deserialize (ReqBody.mapping q.serialize) = .ok q := by
  obtain ⟨i, nm, ds, pr, av, ci⟩ := q
  cases i <;> rfl

/-- C7: a POST /products request that passes the gate and deserializes
answers 201, its body is the serialized created entity with the
storage-assigned id populated, it carries a Location header pointing at
the GET endpoint for that id, and GET on that id against the resulting
state returns the same payload with status 200. -/
theorem c7_create_response (body : ReqBody) (db : DB) (p : Product)
    (hd : Product.deserialize body = .ok p)
    (hfresh : ∀ q ∈ db.products, q.id ≠ some db.nextId) :
    (create_products (some "application/json") body db).1 =
      ⟨201, .jsonObj (Product.serialize { p with id := some db.nextId }),
        some (location_url db.nextId)⟩ ∧
    get_products db.nextId (create_products (some "application/json") body db).2 =
      ⟨200, .jsonObj (Product.serialize { p with id := some db.nextId }), none⟩ := by
  have hnone : db.products.find? (fun q => q.id = some db.nextId) = none := by
    rw [List.find?_eq_none]
    intro x hx
    simpa using hfresh x hx
  constructor
  · simp [create_products, check_content_type, hd, Product.create]
  · simp [create_products, check_content_type, hd, Product.create, get_products,
      Product.find, List.find?_append, hnone, List.find?]

theorem c7_create_response_witness :
    Product.deserialize fedoraBody = .ok ⟨none, "Fedora", "A red hat", ⟨1250, 2⟩, true, 1⟩ ∧
    (create_products (some "application/json") fedoraBody dbE).1 =
      ⟨201, .jsonObj (Product.serialize ⟨some 1, "Fedora", "A red hat", ⟨1250, 2⟩, true, 1⟩),
        some (location_url 1)⟩ ∧
    get_products 1 (create_products (some "application/json") fedoraBody dbE).2 =
      ⟨200, .jsonObj (Product.serialize ⟨some 1, "Fedora", "A red hat", ⟨1250, 2⟩, true, 1⟩),
        none⟩ :=
  ⟨rfl,
   (c7_create_response fedoraBody dbE ⟨none, "Fedora", "A red hat", ⟨1250, 2⟩, true, 1⟩
      rfl (by simp [dbE])).1,
   (c7_create_response fedoraBody dbE ⟨none, "Fedora", "A red hat", ⟨1250, 2⟩, true, 1⟩
      rfl (by simp [dbE])).2⟩

/-- C8: deserializing a valid payload, creating the Product, serializing
it and deserializing the result is the identity on the created entity, so
name, description, price (exact decimal equality, the price travelling as
an exact decimal value and never a float), available and category_id are
all preserved. -/
theorem c8_round_trip (body : ReqBody) (db : DB) (p : Product)
    (_hd : Product.deserialize body = .ok p) :
    Product.deserialize (ReqBody.mapping (Product.serialize (Product.create p db).1)) =
      .ok (Product.create p db).1 ∧
    (Product.create p db).1.name = p.name ∧
    (Product.create p db).1.description = p.description ∧
    (Product.create p db).1.price = p.price ∧
    (Product.create p db).1.available = p.available ∧
    (Product.create p db).1.category_id = p.category_id :=
  ⟨deserialize_serialize (Product.create p db).1, rfl, rfl, rfl, rfl, rfl⟩

theorem c8_round_trip_witness :
    Product.deserialize fedoraBody = .ok ⟨none, "Fedora", "A red hat", ⟨1250, 2⟩, true, 1⟩ ∧
    Product.deserialize (ReqBody.mapping (Product.serialize
        (Product.create ⟨none, "Fedora", "A red hat", ⟨1250, 2⟩, true, 1⟩ dbE).1)) =
      .ok (Product.create ⟨none, "Fedora", "A red hat", ⟨1250, 2⟩, true, 1⟩ dbE).1 ∧
    (Product.create ⟨none, "Fedora", "A red hat", ⟨1250, 2⟩, true, 1⟩ dbE).1.price =
      ⟨1250, 2⟩ :=
  ⟨rfl,
   (c8_round_trip fedoraBody dbE ⟨none, "Fedora", "A red hat", ⟨1250, 2⟩, true, 1⟩
      rfl).1,
   (c8_round_trip fedoraBody dbE ⟨none, "Fedora", "A red hat", ⟨1250, 2⟩, true, 1⟩
      rfl).2.2.2.1⟩
